import Mathlib

/-!
Shallow embedding of the creative-automation pipeline
(`src/main.py` together with `src/config.py`): asset location on disk,
the Hugging Face generation fallback chain, per-aspect-ratio rendering
with text overlay, and the accumulated run report.

External collaborators (the filesystem, the generation HTTP service,
and the PIL decode/resize/draw primitives) are modelled by an `Env` of
oracle functions; filesystem writes performed by the pipeline are
tracked explicitly in an `FS` state threaded through the run.
-/

namespace Pipeline

/-- Raw bytes: the body of an HTTP response, or the content of a file
written with `open(path, 'wb')`. -/
abbrev Bytes := List Nat

/-- Result of one `requests.post` call: an HTTP response with a status
code and body, or a raised transport exception. -/
inductive HttpResult where
  | response (status_code : Nat) (content : Bytes)
  | exn
deriving DecidableEq

/-- A decoded in-memory image: its pixel dimensions and, once the
overlay step has run, the overlaid message together with the font size
and the anchor `(x, y)` it was drawn at (`none` = no overlay drawn). -/
structure Image where
  width : Nat
  height : Nat
  overlay : Option (String × Nat × Nat × Int)
deriving DecidableEq

/-- Contents of a file in the modelled filesystem: raw bytes written by
the generation step, or a JPEG encoding of an image saved with
`img.save(path, 'JPEG', quality=q)`. -/
inductive FileData where
  | raw (content : Bytes)
  | jpeg (img : Image) (quality : Nat)
deriving DecidableEq

/-- The external collaborators:
* `fs0 p` — whether path `p` exists on disk before the run starts;
* `http model prompt` — the outcome of `requests.post` to the
  inference endpoint of `model` with the given prompt body;
* `decodeOk path dims` — whether `Image.open(path)` followed by
  `resize(dims, LANCZOS)` succeeds for the file at `path`;
* `overlayOk img msg ratio` — whether the PIL drawing calls inside
  `add_campaign_message` succeed for that image, message and ratio. -/
structure Env where
  fs0 : String → Bool
  http : String → String → HttpResult
  decodeOk : String → Nat × Nat → Bool
  overlayOk : Image → String → String → Bool

/-- Files written by the pipeline so far, most recent first. -/
abbrev FS := List (String × FileData)

/-- Python `os.path.exists p`: true if `p` existed initially or was written
during the run. -/
def fsExists (env : Env) (fs : FS) (p : String) : Bool :=
  env.fs0 p || fs.any (fun e => e.1 == p)

/-- Record a file write. -/
def fsWrite (fs : FS) (p : String) (d : FileData) : FS :=
  (p, d) :: fs

/-- Content of the most recent write to `p`, if any. -/
def fsLookup (fs : FS) (p : String) : Option FileData :=
  (fs.find? (fun e => e.1 == p)).map (·.2)

/-- Python `os.path.join` for the simple two-component joins the pipeline
performs. -/
def joinPath (dir name : String) : String :=
  dir ++ "/" ++ name

/-- The configuration surface from `src/config.py` consumed by the
pipeline. The API key is `none` when the environment variable is
absent. -/
structure Config where
  HUGGINGFACE_API_KEY : Option String
  AI_PRIORITY : List String
  HUGGINGFACE_MODELS : List String
  ASPECT_RATIOS : List (String × Nat × Nat)
  INPUT_ASSETS_DIR : String
  OUTPUT_DIR : String

/-- The literal `Config` values from `src/config.py`, parameterized by
the (environment-supplied) API key. -/
def defaultConfig (key : Option String) : Config where
  HUGGINGFACE_API_KEY := key
  AI_PRIORITY := ["huggingface"]
  HUGGINGFACE_MODELS :=
    ["black-forest-labs/FLUX.1-schnell",
     "dataautogpt3/OpenDalleV1.1",
     "warp-ai/dalle-3"]
  ASPECT_RATIOS := [("1_1", 1024, 1024), ("9_16", 720, 1280), ("16_9", 1280, 720)]
  INPUT_ASSETS_DIR := "input_assets"
  OUTPUT_DIR := "output"

/-- One product of a campaign brief. -/
structure Product where
  id : String
  name : String
  description : String
deriving DecidableEq

/-- A parsed campaign brief (loading from JSON is an excluded
collaborator; the pipeline consumes the parsed structure). -/
structure CampaignBrief where
  campaign_name : String
  campaign_message : String
  products : List Product
deriving DecidableEq

/-- One entry of the `generation_methods` list of the run report. -/
structure GenEntry where
  product : String
  product_name : String
  method : String
  input_asset : String
  output : String
deriving DecidableEq

/-- The `results` dictionary built by `generate_creatives`. -/
structure RunReport where
  campaign : String
  products_processed : Nat
  assets_generated : Nat
  generation_methods : List GenEntry
deriving DecidableEq

/-- The extension candidates tried by `get_existing_asset_path`, in
source order. -/
def possible_extensions : List String :=
  [".jpg", ".jpeg", ".png", ".webp"]

/-- The candidate asset paths for a product id, in the order the source
tries them. -/
def assetCandidates (cfg : Config) (product_id : String) : List String :=
  possible_extensions.map (fun ext => joinPath cfg.INPUT_ASSETS_DIR (product_id ++ ext))

/-- The extension loop inside `get_existing_asset_path`. -/
def locateLoop (env : Env) (cfg : Config) (fs : FS) (product_id : String) :
    List String → Option String
  | [] => none
  | ext :: rest =>
    let asset_path := joinPath cfg.INPUT_ASSETS_DIR (product_id ++ ext)
    if fsExists env fs asset_path then some asset_path
    else locateLoop env cfg fs product_id rest

/-- Embeds `get_existing_asset_path` (src/main.py lines 31-43): first candidate
path that exists, else `None`. -/
def get_existing_asset_path (env : Env) (cfg : Config) (fs : FS) (product_id : String) :
    Option String :=
  locateLoop env cfg fs product_id possible_extensions

/-- The prompt string built inside `generate_with_huggingface`. -/
def promptFor (product : Product) : String :=
  "professional product photo of " ++ product.name ++ ", " ++ product.description ++
    ", clean white background, high quality, advertising photography, studio lighting"

/-- The model loop inside `generate_with_huggingface`: first model whose
POST returns status 200 wins; its bytes are written to
`<INPUT_ASSETS_DIR>/<id>.jpg` and that path is returned. A non-200
status or a transport exception advances to the next model. -/
def hfLoop (env : Env) (cfg : Config) (product : Product) :
    List String → FS → Option String × FS
  | [], fs => (none, fs)
  | model :: rest, fs =>
    match env.http model (promptFor product) with
    | .response 200 content =>
      let asset_path := joinPath cfg.INPUT_ASSETS_DIR (product.id ++ ".jpg")
      (some asset_path, fsWrite fs asset_path (.raw content))
    | .response _ _ => hfLoop env cfg product rest fs
    | .exn => hfLoop env cfg product rest fs

/-- Embeds `generate_with_huggingface` (src/main.py lines 45-81). -/
def generate_with_huggingface (env : Env) (cfg : Config) (product : Product) (fs : FS) :
    Option String × FS :=
  hfLoop env cfg product cfg.HUGGINGFACE_MODELS fs

/-- Python truthiness of `self.config.HUGGINGFACE_API_KEY`: falsy when
the variable is absent (`None`) or the empty string. -/
def keyTruthy : Option String → Bool
  | none => false
  | some s => !(s == "")

/-- The service loop inside `generate_product_image`: only
`huggingface` is handled, and only when the API key is truthy; a `None`
from `generate_with_huggingface` advances to the next service; when the
list is exhausted an exception is raised (`Except.error`). -/
def gpiLoop (env : Env) (cfg : Config) (product : Product) :
    List String → FS → Except String String × FS
  | [], fs =>
    (.error ("All GenAI services failed for product: " ++ product.name), fs)
  | service :: rest, fs =>
    if service == "huggingface" && keyTruthy cfg.HUGGINGFACE_API_KEY then
      match generate_with_huggingface env cfg product fs with
      | (some generated_path, fs') => (.ok generated_path, fs')
      | (none, fs') => gpiLoop env cfg product rest fs'
    else
      gpiLoop env cfg product rest fs

/-- Embeds `generate_product_image` (src/main.py lines 83-103): raises when
every service fails. -/
def generate_product_image (env : Env) (cfg : Config) (product : Product) (fs : FS) :
    Except String String × FS :=
  gpiLoop env cfg product cfg.AI_PRIORITY fs

/-- Embeds `resize_image_for_aspect_ratio` (src/main.py lines 105-114): decode
and resize, `None` on any exception. The `aspect_ratio` argument is
unused in the source body and kept here for fidelity. -/
def resize_image_for_aspect_ratio (env : Env) (image_path : String)
    (aspect_ratio : String) (dimensions : Nat × Nat) : Option Image :=
  if env.decodeOk image_path dimensions then
    some { width := dimensions.1, height := dimensions.2, overlay := none }
  else none

/-- The fixed font-size / anchor table inside `add_campaign_message`
(src/main.py lines 123-132): a function of the ratio label and the
image height only. Returns `(font_size, x, y)`. -/
def overlayParamsFor (image : Image) (aspect_ratio : String) : Nat × Nat × Int :=
  if aspect_ratio == "9_16" then (40, 50, (image.height : Int) - 100)
  else if aspect_ratio == "16_9" then (50, 100, (image.height : Int) - 80)
  else (45, 60, (image.height : Int) - 90)

/-- Embeds `add_campaign_message` (src/main.py lines 116-157): on success the
message is drawn at the table position; on any exception the input
image is returned unchanged. -/
def add_campaign_message (env : Env) (image : Image) (campaign_message : String)
    (aspect_ratio : String) : Image :=
  if env.overlayOk image campaign_message aspect_ratio then
    let p := overlayParamsFor image aspect_ratio
    { image with overlay := some (campaign_message, p.1, p.2.1, p.2.2) }
  else
    image

/-- The initial `results` dictionary of `generate_creatives`
(src/main.py lines 169-174). -/
def initReport (brief : CampaignBrief) : RunReport where
  campaign := brief.campaign_name
  products_processed := 0
  assets_generated := 0
  generation_methods := []

/-- One iteration of the aspect-ratio loop of `generate_creatives`
(src/main.py lines 197-230): resize; on failure skip silently; else
overlay, write the quality-95 JPEG, bump `assets_generated` and append
one `generation_methods` entry. -/
def processRatio (env : Env) (cfg : Config) (brief : CampaignBrief) (product : Product)
    (asset_path method : String) (st : FS × RunReport) (r : String × Nat × Nat) :
    FS × RunReport :=
  let ratio_name := r.1
  match resize_image_for_aspect_ratio env asset_path ratio_name (r.2.1, r.2.2) with
  | none => st
  | some resized_img =>
    let final_img := add_campaign_message env resized_img brief.campaign_message ratio_name
    let output_path :=
      joinPath (joinPath (joinPath cfg.OUTPUT_DIR product.id) ratio_name)
        ("creative_" ++ ratio_name ++ ".jpg")
    (fsWrite st.1 output_path (.jpeg final_img 95),
      { st.2 with
        assets_generated := st.2.assets_generated + 1
        generation_methods := st.2.generation_methods ++
          [{ product := product.id
             product_name := product.name
             method := method
             input_asset := asset_path
             output := output_path }] })

/-- The `if asset_path and os.path.exists(asset_path)` block of
`generate_creatives` (src/main.py lines 194-235): when the resolved
path is truthy and exists, render every configured aspect ratio and
then increment `products_processed` once; otherwise log and continue,
leaving the state untouched. -/
def processResolved (env : Env) (cfg : Config) (brief : CampaignBrief) (product : Product)
    (asset_path method : String) (fs : FS) (results : RunReport) : FS × RunReport :=
  if !(asset_path == "") && fsExists env fs asset_path then
    let st := cfg.ASPECT_RATIOS.foldl
      (processRatio env cfg brief product asset_path method) (fs, results)
    (st.1, { st.2 with products_processed := st.2.products_processed + 1 })
  else
    (fs, results)

/-- One iteration of the product loop of `generate_creatives`
(src/main.py lines 177-235): existing asset first, else generation
(whose exception propagates out of the loop). -/
def processProduct (env : Env) (cfg : Config) (brief : CampaignBrief)
    (st : FS × RunReport) (product : Product) : Except String (FS × RunReport) :=
  match get_existing_asset_path env cfg st.1 product.id with
  | some existing_asset_path =>
    .ok (processResolved env cfg brief product existing_asset_path "existing_asset" st.1 st.2)
  | none =>
    match generate_product_image env cfg product st.1 with
    | (.error e, _) => .error e
    | (.ok asset_path, fs') =>
      .ok (processResolved env cfg brief product asset_path "genai_generated" fs' st.2)

/-- The product loop of `generate_creatives`: sequential, an uncaught
exception from `generate_product_image` aborts it. -/
def runProducts (env : Env) (cfg : Config) (brief : CampaignBrief) :
    List Product → FS × RunReport → Except String (FS × RunReport)
  | [], st => .ok st
  | p :: ps, st =>
    match processProduct env cfg brief st p with
    | .error e => .error e
    | .ok st' => runProducts env cfg brief ps st'

/-- Embeds `generate_creatives` (src/main.py lines 159-238) applied to an
already-parsed brief (brief loading is an excluded collaborator):
returns the final filesystem and run report, or the message of an
uncaught exception. -/
def generate_creatives (env : Env) (cfg : Config) (brief : CampaignBrief) :
    Except String (FS × RunReport) :=
  runProducts env cfg brief brief.products ([], initReport brief)

/-- Whether one model attempt succeeds: its POST comes back with
status 200. -/
def hfSuccess (env : Env) (product : Product) (model : String) : Bool :=
  match env.http model (promptFor product) with
  | .response 200 _ => true
  | .response _ _ => false
  | .exn => false

/-! ### Concrete instances used by witnesses and counterexamples -/

/-- An environment where `input_assets/P1.jpg` exists, decoding always
succeeds, drawing always succeeds, and the network always fails. -/
def envW : Env where
  fs0 := fun p => p == "input_assets/P1.jpg"
  http := fun _ _ => .exn
  decodeOk := fun _ _ => true
  overlayOk := fun _ _ _ => true

/-- An environment with an empty filesystem and a dead network. -/
def envFail : Env where
  fs0 := fun _ => false
  http := fun _ _ => .exn
  decodeOk := fun _ _ => true
  overlayOk := fun _ _ _ => true

/-- An environment where the first configured model returns HTTP 404
and every other model returns HTTP 200 with body `[7]`. -/
def envGen : Env where
  fs0 := fun _ => false
  http := fun m _ =>
    if m == "black-forest-labs/FLUX.1-schnell" then .response 404 [] else .response 200 [7]
  decodeOk := fun _ _ => true
  overlayOk := fun _ _ _ => true

/-- An environment where `input_assets/P1.jpg` exists and decoding
fails exactly for the 720×1280 target dimensions. -/
def envSkip : Env where
  fs0 := fun p => p == "input_assets/P1.jpg"
  http := fun _ _ => .exn
  decodeOk := fun _ d => !(d == ((720 : Nat), (1280 : Nat)))
  overlayOk := fun _ _ _ => true

/-- A concrete product with an existing asset in `envW`. -/
def prodP1 : Product := ⟨"P1", "P1 name", "P1 desc"⟩

/-- A concrete product with no asset anywhere. -/
def prodP2 : Product := ⟨"P2", "Product Two", "desc two"⟩

/-- A concrete product whose asset `input_assets/P3.jpg` exists in
`envC1` below. -/
def prodP3 : Product := ⟨"P3", "Product Three", "desc three"⟩

/-- An environment where only `input_assets/P3.jpg` exists and the
network always fails. -/
def envC1 : Env where
  fs0 := fun p => p == "input_assets/P3.jpg"
  http := fun _ _ => .exn
  decodeOk := fun _ _ => true
  overlayOk := fun _ _ _ => true

/-- An empty report with campaign name `"c"`. -/
def repZero : RunReport := ⟨"c", 0, 0, []⟩

/-- The report entry recorded for product `P1` (name `nm`) and ratio
label `ar` when its existing asset is reused. -/
def c5Entry (nm ar : String) : GenEntry where
  product := "P1"
  product_name := nm
  method := "existing_asset"
  input_asset := "input_assets/P1.jpg"
  output := joinPath (joinPath (joinPath "output" "P1") ar) ("creative_" ++ ar ++ ".jpg")

/-- The three creatives written by a run over the single product `P1`
with campaign message `msg` in environment `env`, most recent first. -/
def c5FS (env : Env) (msg : String) : FS :=
  [((c5Entry "" "16_9").output,
    .jpeg (add_campaign_message env { width := 1280, height := 720, overlay := none }
      msg "16_9") 95),
   ((c5Entry "" "9_16").output,
    .jpeg (add_campaign_message env { width := 720, height := 1280, overlay := none }
      msg "9_16") 95),
   ((c5Entry "" "1_1").output,
    .jpeg (add_campaign_message env { width := 1024, height := 1024, overlay := none }
      msg "1_1") 95)]

/-- The report produced by that run. -/
def c5Report (cname nm : String) : RunReport :=
  ⟨cname, 1, 3, [c5Entry nm "1_1", c5Entry nm "9_16", c5Entry nm "16_9"]⟩

/-- A one-product brief around `prodP1`. -/
def briefW : CampaignBrief := ⟨"c", "m", [prodP1]⟩

/-! ### Helper lemmas -/

theorem locateLoop_eq_find (env : Env) (cfg : Config) (fs : FS) (pid : String) :
    ∀ exts : List String,
      locateLoop env cfg fs pid exts =
        (exts.map (fun ext => joinPath cfg.INPUT_ASSETS_DIR (pid ++ ext))).find?
          (fsExists env fs)
  | [] => rfl
  | ext :: rest => by
    unfold locateLoop
    cases h : fsExists env fs (joinPath cfg.INPUT_ASSETS_DIR (pid ++ ext)) with
    | true => simp [List.find?, h]
    | false => simp [List.find?, h, locateLoop_eq_find env cfg fs pid rest]

theorem locateLoop_none (env : Env) (cfg : Config) (fs : FS) (pid : String)
    (exts : List String)
    (h : ∀ ext ∈ exts, fsExists env fs (joinPath cfg.INPUT_ASSETS_DIR (pid ++ ext)) = false) :
    locateLoop env cfg fs pid exts = none := by
  induction exts with
  | nil => rfl
  | cons ext rest ih =>
    unfold locateLoop
    simp only [h ext (by simp), Bool.false_eq_true, if_false]
    exact ih fun e he => h e (by simp [he])

theorem processRatio_skip (env : Env) (cfg : Config) (brief : CampaignBrief)
    (product : Product) (asset_path method : String) (st : FS × RunReport)
    (r : String × Nat × Nat) (h : env.decodeOk asset_path (r.2.1, r.2.2) = false) :
    processRatio env cfg brief product asset_path method st r = st := by
  unfold processRatio resize_image_for_aspect_ratio
  simp [h]

theorem hfLoop_none (env : Env) (cfg : Config) (product : Product) :
    ∀ (ms : List String) (fs : FS),
      (∀ m ∈ ms, hfSuccess env product m = false) →
      hfLoop env cfg product ms fs = (none, fs)
  | [], _, _ => rfl
  | m :: rest, fs, h => by
    have hm := h m (by simp)
    unfold hfLoop
    split
    · next content hh =>
      exfalso
      unfold hfSuccess at hm
      rw [hh] at hm
      simp at hm
    · next => exact hfLoop_none env cfg product rest fs fun e he => h e (by simp [he])
    · next => exact hfLoop_none env cfg product rest fs fun e he => h e (by simp [he])

theorem hfLoop_skip (env : Env) (cfg : Config) (product : Product) :
    ∀ (ms₁ rest : List String) (fs : FS),
      (∀ m ∈ ms₁, hfSuccess env product m = false) →
      hfLoop env cfg product (ms₁ ++ rest) fs = hfLoop env cfg product rest fs
  | [], _, _, _ => rfl
  | m :: ms₁, rest, fs, h => by
    have hm := h m (by simp)
    rw [List.cons_append]
    conv_lhs => rw [hfLoop]
    split
    · next content hh =>
      exfalso
      unfold hfSuccess at hm
      rw [hh] at hm
      simp at hm
    · next => exact hfLoop_skip env cfg product ms₁ rest fs fun e he => h e (by simp [he])
    · next => exact hfLoop_skip env cfg product ms₁ rest fs fun e he => h e (by simp [he])

theorem hfLoop_head_success (env : Env) (cfg : Config) (product : Product)
    (m : String) (rest : List String) (fs : FS) (c : Bytes)
    (h : env.http m (promptFor product) = .response 200 c) :
    hfLoop env cfg product (m :: rest) fs =
      (some (joinPath cfg.INPUT_ASSETS_DIR (product.id ++ ".jpg")),
       fsWrite fs (joinPath cfg.INPUT_ASSETS_DIR (product.id ++ ".jpg")) (.raw c)) := by
  unfold hfLoop
  split
  · next content hh =>
    rw [h] at hh
    cases hh
    rfl
  · next s content hne hh =>
    rw [h] at hh
    cases hh
    simp at hne
  · next hh => rw [h] at hh; cases hh

theorem gpiLoop_key_false (env : Env) (cfg : Config) (product : Product)
    (hkey : keyTruthy cfg.HUGGINGFACE_API_KEY = false) :
    ∀ (services : List String) (fs : FS),
      gpiLoop env cfg product services fs =
        (.error ("All GenAI services failed for product: " ++ product.name), fs)
  | [], _ => rfl
  | service :: rest, fs => by
    unfold gpiLoop
    rw [hkey]
    simp only [Bool.and_false, Bool.false_eq_true, if_false]
    exact gpiLoop_key_false env cfg product hkey rest fs

theorem gpiLoop_models_fail (env : Env) (cfg : Config) (product : Product)
    (hm : ∀ m ∈ cfg.HUGGINGFACE_MODELS, hfSuccess env product m = false) :
    ∀ (services : List String) (fs : FS),
      gpiLoop env cfg product services fs =
        (.error ("All GenAI services failed for product: " ++ product.name), fs)
  | [], _ => rfl
  | service :: rest, fs => by
    conv_lhs => rw [gpiLoop]
    have hnone : generate_with_huggingface env cfg product fs = (none, fs) :=
      hfLoop_none env cfg product cfg.HUGGINGFACE_MODELS fs hm
    by_cases hc : (service == "huggingface" && keyTruthy cfg.HUGGINGFACE_API_KEY) = true
    · rw [if_pos hc, hnone]
      exact gpiLoop_models_fail env cfg product hm rest fs
    · rw [if_neg hc]
      exact gpiLoop_models_fail env cfg product hm rest fs

theorem generate_product_image_exhausted (env : Env) (cfg : Config) (product : Product)
    (fs : FS)
    (hexh : keyTruthy cfg.HUGGINGFACE_API_KEY = false ∨
      ∀ m ∈ cfg.HUGGINGFACE_MODELS, hfSuccess env product m = false) :
    generate_product_image env cfg product fs =
      (.error ("All GenAI services failed for product: " ++ product.name), fs) := by
  rcases hexh with h | h
  · exact gpiLoop_key_false env cfg product h cfg.AI_PRIORITY fs
  · exact gpiLoop_models_fail env cfg product h cfg.AI_PRIORITY fs

theorem runProducts_prefix (env : Env) (cfg : Config) (brief : CampaignBrief) :
    ∀ (ps₁ ps₂ : List Product) (st st' : FS × RunReport),
      runProducts env cfg brief ps₁ st = .ok st' →
      runProducts env cfg brief (ps₁ ++ ps₂) st = runProducts env cfg brief ps₂ st'
  | [], ps₂, st, st', h => by
    unfold runProducts at h
    cases h
    rfl
  | q :: qs, ps₂, st, st', h => by
    have h' := h
    rw [show runProducts env cfg brief (q :: qs) st =
      (match processProduct env cfg brief st q with
        | .error e => .error e
        | .ok st1 => runProducts env cfg brief qs st1) from rfl] at h'
    rw [List.cons_append,
      show runProducts env cfg brief (q :: (qs ++ ps₂)) st =
        (match processProduct env cfg brief st q with
          | .error e => .error e
          | .ok st1 => runProducts env cfg brief (qs ++ ps₂) st1) from rfl]
    cases hq : processProduct env cfg brief st q with
    | error e =>
      rw [hq] at h'
      simp at h'
    | ok st1 =>
      rw [hq] at h'
      exact runProducts_prefix env cfg brief qs ps₂ st1 st' h'

theorem processRatio_methods (env : Env) (cfg : Config) (brief : CampaignBrief)
    (product : Product) (asset_path method : String) (st : FS × RunReport)
    (r : String × Nat × Nat) :
    ∃ new, (processRatio env cfg brief product asset_path method st r).2.generation_methods =
        st.2.generation_methods ++ new ∧ ∀ e ∈ new, e.method = method := by
  simp only [processRatio]
  cases hres : resize_image_for_aspect_ratio env asset_path r.1 (r.2.1, r.2.2) with
  | none => exact ⟨[], by simp, by simp⟩
  | some img =>
    refine ⟨[{ product := product.id
               product_name := product.name
               method := method
               input_asset := asset_path
               output := joinPath (joinPath (joinPath cfg.OUTPUT_DIR product.id) r.1)
                 ("creative_" ++ r.1 ++ ".jpg") }], by simp, by simp⟩

theorem foldRatios_methods (env : Env) (cfg : Config) (brief : CampaignBrief)
    (product : Product) (asset_path method : String) :
    ∀ (rs : List (String × Nat × Nat)) (st : FS × RunReport),
      ∃ new,
        (rs.foldl (processRatio env cfg brief product asset_path method) st).2.generation_methods
          = st.2.generation_methods ++ new ∧ ∀ e ∈ new, e.method = method
  | [], st => ⟨[], by simp, by simp⟩
  | r :: rs, st => by
    obtain ⟨n1, h1, hm1⟩ := processRatio_methods env cfg brief product asset_path method st r
    obtain ⟨n2, h2, hm2⟩ := foldRatios_methods env cfg brief product asset_path method rs
      (processRatio env cfg brief product asset_path method st r)
    refine ⟨n1 ++ n2, ?_, ?_⟩
    · rw [List.foldl_cons, h2, h1, List.append_assoc]
    · intro e he
      rcases List.mem_append.mp he with h | h
      · exact hm1 e h
      · exact hm2 e h

theorem processRatio_pp (env : Env) (cfg : Config) (brief : CampaignBrief)
    (product : Product) (asset_path method : String) (st : FS × RunReport)
    (r : String × Nat × Nat) :
    (processRatio env cfg brief product asset_path method st r).2.products_processed =
      st.2.products_processed := by
  simp only [processRatio]
  cases hres : resize_image_for_aspect_ratio env asset_path r.1 (r.2.1, r.2.2) with
  | none => rfl
  | some img => rfl

theorem foldRatios_pp (env : Env) (cfg : Config) (brief : CampaignBrief)
    (product : Product) (asset_path method : String) :
    ∀ (rs : List (String × Nat × Nat)) (st : FS × RunReport),
      (rs.foldl (processRatio env cfg brief product asset_path method) st).2.products_processed
        = st.2.products_processed
  | [], _ => rfl
  | r :: rs, st => by
    rw [List.foldl_cons,
      foldRatios_pp env cfg brief product asset_path method rs
        (processRatio env cfg brief product asset_path method st r),
      processRatio_pp]

theorem processRatio_inv (env : Env) (cfg : Config) (brief : CampaignBrief)
    (product : Product) (asset_path method : String) (st : FS × RunReport)
    (r : String × Nat × Nat)
    (h : st.2.assets_generated = st.2.generation_methods.length) :
    (processRatio env cfg brief product asset_path method st r).2.assets_generated =
      (processRatio env cfg brief product asset_path method st r).2.generation_methods.length := by
  simp only [processRatio]
  cases hres : resize_image_for_aspect_ratio env asset_path r.1 (r.2.1, r.2.2) with
  | none => exact h
  | some img => simp [h]

theorem foldRatios_inv (env : Env) (cfg : Config) (brief : CampaignBrief)
    (product : Product) (asset_path method : String) :
    ∀ (rs : List (String × Nat × Nat)) (st : FS × RunReport),
      st.2.assets_generated = st.2.generation_methods.length →
      (rs.foldl (processRatio env cfg brief product asset_path method) st).2.assets_generated =
        (rs.foldl (processRatio env cfg brief product asset_path method) st).2.generation_methods.length
  | [], _, h => h
  | r :: rs, st, h => by
    rw [List.foldl_cons]
    exact foldRatios_inv env cfg brief product asset_path method rs _
      (processRatio_inv env cfg brief product asset_path method st r h)

theorem processResolved_inv (env : Env) (cfg : Config) (brief : CampaignBrief)
    (product : Product) (asset_path method : String) (fs : FS) (r : RunReport)
    (h : r.assets_generated = r.generation_methods.length) :
    (processResolved env cfg brief product asset_path method fs r).2.assets_generated =
      (processResolved env cfg brief product asset_path method fs r).2.generation_methods.length := by
  simp only [processResolved]
  by_cases hc : (!(asset_path == "") && fsExists env fs asset_path) = true
  · simp only [hc, if_true]
    exact foldRatios_inv env cfg brief product asset_path method cfg.ASPECT_RATIOS (fs, r) h
  · simp only [hc, if_false]
    exact h

theorem processProduct_inv (env : Env) (cfg : Config) (brief : CampaignBrief)
    (st st' : FS × RunReport) (product : Product)
    (hp : processProduct env cfg brief st product = .ok st')
    (h : st.2.assets_generated = st.2.generation_methods.length) :
    st'.2.assets_generated = st'.2.generation_methods.length := by
  unfold processProduct at hp
  cases hex : get_existing_asset_path env cfg st.1 product.id with
  | some p =>
    rw [hex] at hp
    cases hp
    exact processResolved_inv env cfg brief product p "existing_asset" st.1 st.2 h
  | none =>
    rw [hex] at hp
    cases hgen : generate_product_image env cfg product st.1 with
    | mk res fs' =>
      rw [hgen] at hp
      cases res with
      | error e => cases hp
      | ok asset_path =>
        cases hp
        exact processResolved_inv env cfg brief product asset_path "genai_generated" fs' st.2 h

theorem runProducts_inv (env : Env) (cfg : Config) (brief : CampaignBrief) :
    ∀ (ps : List Product) (st st' : FS × RunReport),
      runProducts env cfg brief ps st = .ok st' →
      st.2.assets_generated = st.2.generation_methods.length →
      st'.2.assets_generated = st'.2.generation_methods.length
  | [], st, st', h, hinv => by
    unfold runProducts at h
    cases h
    exact hinv
  | p :: ps, st, st', h, hinv => by
    unfold runProducts at h
    cases hp : processProduct env cfg brief st p with
    | error e => rw [hp] at h; cases h
    | ok st1 =>
      rw [hp] at h
      exact runProducts_inv env cfg brief ps st1 st' h
        (processProduct_inv env cfg brief st st1 p hp hinv)

/-! ### Claim theorems -/

/-- C2: `get_existing_asset_path` tries exactly the extensions `.jpg`,
`.jpeg`, `.png`, `.webp` in that order against the configured input
directory and returns the first candidate path that exists; if none of
the four exists it returns `none`. (It is a pure function of the
filesystem state — it takes `fs` and returns only an `Option String`,
performing no writes — hence deterministic for a fixed state.) -/
theorem c2_asset_locator (env : Env) (cfg : Config) (fs : FS) (pid : String) :
    get_existing_asset_path env cfg fs pid =
      (assetCandidates cfg pid).find? (fsExists env fs) ∧
    assetCandidates cfg pid =
      [".jpg", ".jpeg", ".png", ".webp"].map
        (fun ext => joinPath cfg.INPUT_ASSETS_DIR (pid ++ ext)) := by
  exact ⟨locateLoop_eq_find env cfg fs pid possible_extensions, rfl⟩

/-- C7: inside `add_campaign_message` the font size and text anchor are
a fixed table indexed by the ratio label (and the image height for the
vertical offset): `9_16 ↦ (40, (50, h-100))`, `16_9 ↦ (50, (100, h-80))`,
any other label `↦ (45, (60, h-90))`; the successful overlay is drawn
with exactly these parameters, and they are independent of the image
content (width and pixel data play no role). -/
theorem c7_overlay_table (env : Env) (image : Image) (msg ratio : String)
    (h : env.overlayOk image msg ratio = true) :
    (add_campaign_message env image msg ratio).overlay =
      some (msg, (overlayParamsFor image ratio).1, (overlayParamsFor image ratio).2.1,
        (overlayParamsFor image ratio).2.2) ∧
    (ratio = "9_16" → overlayParamsFor image ratio = (40, 50, (image.height : Int) - 100)) ∧
    (ratio = "16_9" → overlayParamsFor image ratio = (50, 100, (image.height : Int) - 80)) ∧
    (ratio ≠ "9_16" → ratio ≠ "16_9" →
      overlayParamsFor image ratio = (45, 60, (image.height : Int) - 90)) ∧
    (∀ (w : Nat) (o : Option (String × Nat × Nat × Int)),
      overlayParamsFor { width := w, height := image.height, overlay := o } ratio =
        overlayParamsFor image ratio) := by
  refine ⟨?_, ?_, ?_, ?_, ?_⟩
  · simp [add_campaign_message, h]
  · intro hr; simp [overlayParamsFor, hr]
  · intro hr; simp [overlayParamsFor, hr]
  · intro h1 h2; simp [overlayParamsFor, h1, h2]
  · intro w o; simp [overlayParamsFor]

/-- C7 witness: concrete instantiation at a 1024-pixel-high image and
the `9_16` label. -/
theorem c7_overlay_table_witness :
    (add_campaign_message
        { fs0 := fun _ => false, http := fun _ _ => .exn,
          decodeOk := fun _ _ => true, overlayOk := fun _ _ _ => true }
        { width := 720, height := 1024, overlay := none } "Hello" "9_16").overlay =
      some ("Hello", 40, 50, (924 : Int)) := by
  have h := c7_overlay_table
    { fs0 := fun _ => false, http := fun _ _ => .exn,
      decodeOk := fun _ _ => true, overlayOk := fun _ _ _ => true }
    { width := 720, height := 1024, overlay := none } "Hello" "9_16" rfl
  rw [h.1, h.2.1 rfl]
  decide

/-- C6: when the overlay step fails, `add_campaign_message` returns the
resized image unchanged, and the per-ratio step of the orchestrator
still writes that degraded image as a quality-95 JPEG and counts it
(one `assets_generated` increment and one `generation_methods`
entry). -/
theorem c6_degraded_render :
    (∀ (env : Env) (image : Image) (msg ratio : String),
      env.overlayOk image msg ratio = false →
      add_campaign_message env image msg ratio = image) ∧
    (∀ (env : Env) (cfg : Config) (brief : CampaignBrief) (product : Product)
      (asset_path method nm : String) (d1 d2 : Nat) (fs : FS) (results : RunReport),
      env.decodeOk asset_path (d1, d2) = true →
      env.overlayOk { width := d1, height := d2, overlay := none }
        brief.campaign_message nm = false →
      processRatio env cfg brief product asset_path method (fs, results) (nm, d1, d2) =
        (fsWrite fs
          (joinPath (joinPath (joinPath cfg.OUTPUT_DIR product.id) nm)
            ("creative_" ++ nm ++ ".jpg"))
          (.jpeg { width := d1, height := d2, overlay := none } 95),
        { results with
          assets_generated := results.assets_generated + 1
          generation_methods := results.generation_methods ++
            [{ product := product.id
               product_name := product.name
               method := method
               input_asset := asset_path
               output :=
                 joinPath (joinPath (joinPath cfg.OUTPUT_DIR product.id) nm)
                   ("creative_" ++ nm ++ ".jpg") }] })) := by
  constructor
  · intro env image msg ratio h
    simp [add_campaign_message, h]
  · intro env cfg brief product asset_path method nm d1 d2 fs results h1 h2
    simp [processRatio, resize_image_for_aspect_ratio, h1, add_campaign_message, h2]

/-- C6 witness: concrete degraded render, written and counted. -/
theorem c6_degraded_render_witness :
    add_campaign_message
        { fs0 := fun _ => false, http := fun _ _ => .exn,
          decodeOk := fun _ _ => true, overlayOk := fun _ _ _ => false }
        { width := 9, height := 9, overlay := none } "m" "1_1" =
      { width := 9, height := 9, overlay := none } ∧
    processRatio
        { fs0 := fun _ => false, http := fun _ _ => .exn,
          decodeOk := fun _ _ => true, overlayOk := fun _ _ _ => false }
        (defaultConfig none) ⟨"c", "m", []⟩ ⟨"P", "N", "D"⟩ "a" "existing_asset"
        ([], ⟨"c", 0, 0, []⟩) ("1_1", 9, 9) =
      ([(joinPath (joinPath (joinPath "output" "P") "1_1") ("creative_" ++ "1_1" ++ ".jpg"),
          .jpeg { width := 9, height := 9, overlay := none } 95)],
        ⟨"c", 0, 1,
          [{ product := "P", product_name := "N", method := "existing_asset",
             input_asset := "a",
             output := joinPath (joinPath (joinPath "output" "P") "1_1")
               ("creative_" ++ "1_1" ++ ".jpg") }]⟩) :=
  ⟨c6_degraded_render.1 _ _ "m" "1_1" rfl,
   c6_degraded_render.2 _ (defaultConfig none) ⟨"c", "m", []⟩ ⟨"P", "N", "D"⟩
     "a" "existing_asset" "1_1" 9 9 [] ⟨"c", 0, 0, []⟩ rfl rfl⟩

/-- C10: the orchestrator re-checks (`if asset_path and
os.path.exists(asset_path)`) the resolved path before rendering; when
the path is falsy or does not exist the whole resolved block is a
no-op — no ratio rendered, no writes, no report entry, no counter
change — and the product loop then continues with the next product. -/
theorem c10_recheck_skip :
    (∀ (env : Env) (cfg : Config) (brief : CampaignBrief) (product : Product)
      (asset_path method : String) (fs : FS) (results : RunReport),
      asset_path = "" ∨ fsExists env fs asset_path = false →
      processResolved env cfg brief product asset_path method fs results = (fs, results)) ∧
    (∀ (env : Env) (cfg : Config) (brief : CampaignBrief) (p : Product)
      (ps : List Product) (st st' : FS × RunReport),
      processProduct env cfg brief st p = .ok st' →
      runProducts env cfg brief (p :: ps) st = runProducts env cfg brief ps st') := by
  constructor
  · intro env cfg brief product asset_path method fs results h
    rcases h with h | h
    · simp [processResolved, h]
    · simp [processResolved, h]
  · intro env cfg brief p ps st st' h
    simp [runProducts, h]

/-- C10 witness: a nonexistent resolved path leaves the state
untouched; a processed product hands the loop to the tail. -/
theorem c10_recheck_skip_witness :
    processResolved
        { fs0 := fun _ => false, http := fun _ _ => .exn,
          decodeOk := fun _ _ => true, overlayOk := fun _ _ _ => true }
        (defaultConfig none) ⟨"c", "m", []⟩ ⟨"P", "N", "D"⟩ "ghost.jpg"
        "existing_asset" [] ⟨"c", 0, 0, []⟩ = ([], ⟨"c", 0, 0, []⟩) :=
  c10_recheck_skip.1 _ (defaultConfig none) ⟨"c", "m", []⟩ ⟨"P", "N", "D"⟩
    "ghost.jpg" "existing_asset" [] ⟨"c", 0, 0, []⟩ (Or.inr rfl)

/-- C4: `generate_with_huggingface` tries the configured models in
their exact order; the first model answered with HTTP 200 wins — its
response bytes are written to `<INPUT_ASSETS_DIR>/<product_id>.jpg` and
that path is returned, with no later model consulted (the result is
independent of the models after the winner); a non-200 status or a
transport failure advances to the next model, and when every model
fails the function returns `none` instead of raising. -/
theorem c4_model_fallback :
    (∀ (env : Env) (cfg : Config) (product : Product) (fs : FS),
      (∀ m ∈ cfg.HUGGINGFACE_MODELS, hfSuccess env product m = false) →
      generate_with_huggingface env cfg product fs = (none, fs)) ∧
    (∀ (env : Env) (cfg : Config) (product : Product) (fs : FS)
      (ms₁ ms₂ : List String) (m : String) (c : Bytes),
      cfg.HUGGINGFACE_MODELS = ms₁ ++ m :: ms₂ →
      (∀ m' ∈ ms₁, hfSuccess env product m' = false) →
      env.http m (promptFor product) = .response 200 c →
      generate_with_huggingface env cfg product fs =
        (some (joinPath cfg.INPUT_ASSETS_DIR (product.id ++ ".jpg")),
         fsWrite fs (joinPath cfg.INPUT_ASSETS_DIR (product.id ++ ".jpg")) (.raw c))) := by
  constructor
  · intro env cfg product fs h
    exact hfLoop_none env cfg product cfg.HUGGINGFACE_MODELS fs h
  · intro env cfg product fs ms₁ ms₂ m c hsplit h1 h2
    unfold generate_with_huggingface
    rw [hsplit, hfLoop_skip env cfg product ms₁ (m :: ms₂) fs h1,
      hfLoop_head_success env cfg product m ms₂ fs c h2]

/-- C4 witness: with a dead network every model fails and the result is
`none`; with the first model failing (HTTP 404) and the second
succeeding, the second model's bytes land at `input_assets/P1.jpg`. -/
theorem c4_model_fallback_witness :
    generate_with_huggingface envFail (defaultConfig none) prodP1 [] = (none, []) ∧
    generate_with_huggingface envGen (defaultConfig none) prodP1 [] =
      (some "input_assets/P1.jpg", [("input_assets/P1.jpg", .raw [7])]) :=
  ⟨c4_model_fallback.1 envFail (defaultConfig none) prodP1 [] (fun m _ => rfl),
   c4_model_fallback.2 envGen (defaultConfig none) prodP1 []
     ["black-forest-labs/FLUX.1-schnell"] ["warp-ai/dalle-3"]
     "dataautogpt3/OpenDalleV1.1" [7] rfl
     (by intro m' hm'; simp at hm'; subst hm'; rfl) rfl⟩

/-- C3: when an existing asset is found for a product, the product-loop
iteration is independent of the generation HTTP service (no model or
provider attempt is made), it succeeds, and every report entry it
appends carries `method = "existing_asset"`. -/
theorem c3_existing_asset_no_generation (env : Env) (h : String → String → HttpResult)
    (cfg : Config) (brief : CampaignBrief) (st : FS × RunReport) (product : Product)
    (p : String)
    (hex : get_existing_asset_path env cfg st.1 product.id = some p) :
    processProduct { env with http := h } cfg brief st product =
      processProduct env cfg brief st product ∧
    ∃ st', processProduct env cfg brief st product = .ok st' ∧
      ∃ new, st'.2.generation_methods = st.2.generation_methods ++ new ∧
        ∀ e ∈ new, e.method = "existing_asset" := by
  have hex' : get_existing_asset_path { env with http := h } cfg st.1 product.id = some p := hex
  constructor
  · unfold processProduct
    rw [hex, hex']
    rfl
  · unfold processProduct
    rw [hex]
    refine ⟨_, rfl, ?_⟩
    unfold processResolved
    by_cases hc : (!(p == "") && fsExists env st.1 p) = true
    · simp only [hc, if_true]
      obtain ⟨new, h1, h2⟩ := foldRatios_methods env cfg brief product p "existing_asset"
        cfg.ASPECT_RATIOS (st.1, st.2)
      exact ⟨new, h1, h2⟩
    · simp only [hc, if_false]
      exact ⟨[], by simp, by simp⟩

/-- C3 witness: concrete product `P1` with an existing asset; replacing
the HTTP service by an always-succeeding one changes nothing, and the
appended entries are all `existing_asset`. -/
theorem c3_existing_asset_no_generation_witness :
    processProduct { envW with http := fun _ _ => .response 200 [7] }
        (defaultConfig none) briefW ([], repZero) prodP1 =
      processProduct envW (defaultConfig none) briefW ([], repZero) prodP1 ∧
    ∃ st', processProduct envW (defaultConfig none) briefW ([], repZero) prodP1 = .ok st' ∧
      ∃ new, st'.2.generation_methods = repZero.generation_methods ++ new ∧
        ∀ e ∈ new, e.method = "existing_asset" :=
  c3_existing_asset_no_generation envW (fun _ _ => .response 200 [7])
    (defaultConfig none) briefW ([], repZero) prodP1 "input_assets/P1.jpg" rfl

/-- C9: when decoding/resizing the source image fails for one aspect
ratio, that ratio is silently skipped — the run behaves exactly as if
the ratio were absent from the configuration (no write, no report
entry, no counter change for it) — while the remaining ratios are
still attempted, and `products_processed` is still incremented once for
the product. -/
theorem c9_resize_failure_skips_ratio (env : Env) (cfg : Config) (brief : CampaignBrief)
    (product : Product) (asset_path method nm : String) (d1 d2 : Nat)
    (rs₁ rs₂ : List (String × Nat × Nat)) (fs : FS) (r : RunReport)
    (hsplit : cfg.ASPECT_RATIOS = rs₁ ++ (nm, d1, d2) :: rs₂)
    (hfail : env.decodeOk asset_path (d1, d2) = false) :
    processResolved env cfg brief product asset_path method fs r =
      processResolved env { cfg with ASPECT_RATIOS := rs₁ ++ rs₂ } brief product
        asset_path method fs r ∧
    ((!(asset_path == "") && fsExists env fs asset_path) = true →
      (processResolved env cfg brief product asset_path method fs r).2.products_processed =
        r.products_processed + 1) := by
  have hpr : processRatio env { cfg with ASPECT_RATIOS := rs₁ ++ rs₂ } brief product
      asset_path method = processRatio env cfg brief product asset_path method := rfl
  constructor
  · unfold processResolved
    by_cases hc : (!(asset_path == "") && fsExists env fs asset_path) = true
    · simp only [hc, if_true, hpr, hsplit]
      rw [List.foldl_append, List.foldl_cons, List.foldl_append,
        processRatio_skip env cfg brief product asset_path method _ (nm, d1, d2) hfail]
    · simp only [if_neg hc]
  · intro hc
    unfold processResolved
    simp only [hc, if_true]
    rw [foldRatios_pp]

/-- C9 witness: the default configuration with the `9_16` decode
failing behaves like a configuration without `9_16`, and the product is
still counted as processed. -/
theorem c9_resize_failure_skips_ratio_witness :
    processResolved envSkip (defaultConfig none) briefW prodP1 "input_assets/P1.jpg"
        "existing_asset" [] repZero =
      processResolved envSkip
        { defaultConfig none with ASPECT_RATIOS := [("1_1", 1024, 1024), ("16_9", 1280, 720)] }
        briefW prodP1 "input_assets/P1.jpg" "existing_asset" [] repZero ∧
    (processResolved envSkip (defaultConfig none) briefW prodP1 "input_assets/P1.jpg"
        "existing_asset" [] repZero).2.products_processed = repZero.products_processed + 1 := by
  have h := c9_resize_failure_skips_ratio envSkip (defaultConfig none) briefW prodP1
    "input_assets/P1.jpg" "existing_asset" "9_16" 720 1280
    [("1_1", 1024, 1024)] [("16_9", 1280, 720)] [] repZero rfl rfl
  exact ⟨h.1, h.2 rfl⟩

/-- C8: the counter `assets_generated` always equals the length of the
`generation_methods` list: both start at zero in the initial report,
the per-ratio step preserves the equality (an increment always comes
with exactly one appended entry), and the report returned by a
completed run satisfies it. -/
theorem c8_count_matches_entries :
    (∀ brief, (initReport brief).assets_generated =
      (initReport brief).generation_methods.length) ∧
    (∀ (env : Env) (cfg : Config) (brief : CampaignBrief) (product : Product)
      (asset_path method : String) (st : FS × RunReport) (r : String × Nat × Nat),
      st.2.assets_generated = st.2.generation_methods.length →
      (processRatio env cfg brief product asset_path method st r).2.assets_generated =
        (processRatio env cfg brief product asset_path method st r).2.generation_methods.length) ∧
    (∀ (env : Env) (cfg : Config) (brief : CampaignBrief) (fs : FS) (r : RunReport),
      generate_creatives env cfg brief = .ok (fs, r) →
      r.assets_generated = r.generation_methods.length) := by
  refine ⟨fun brief => rfl, processRatio_inv, ?_⟩
  intro env cfg brief fs r h
  exact runProducts_inv env cfg brief brief.products ([], initReport brief) (fs, r) h rfl

/-- C8 witness: the initial report of the concrete brief satisfies the
equality, one concrete per-ratio step preserves it, and a full concrete
run returns a report satisfying it. -/
theorem c8_count_matches_entries_witness :
    (initReport briefW).assets_generated = (initReport briefW).generation_methods.length ∧
    (processRatio envW (defaultConfig none) briefW prodP1 "input_assets/P1.jpg"
        "existing_asset" ([], repZero) ("1_1", 4, 4)).2.assets_generated =
      (processRatio envW (defaultConfig none) briefW prodP1 "input_assets/P1.jpg"
        "existing_asset" ([], repZero) ("1_1", 4, 4)).2.generation_methods.length ∧
    ∃ fs r, generate_creatives envW (defaultConfig none) briefW = .ok (fs, r) ∧
      r.assets_generated = r.generation_methods.length := by
  obtain ⟨fs, r, hr⟩ :
      ∃ fs r, generate_creatives envW (defaultConfig none) briefW = .ok (fs, r) := ⟨_, _, rfl⟩
  exact ⟨c8_count_matches_entries.1 briefW,
    c8_count_matches_entries.2.1 envW (defaultConfig none) briefW prodP1
      "input_assets/P1.jpg" "existing_asset" ([], repZero) ("1_1", 4, 4) rfl,
    fs, r, hr, c8_count_matches_entries.2.2 envW (defaultConfig none) briefW fs r hr⟩

/-- C1 counterexample: a brief with products `P2` (no asset, generation
credential absent) and `P3` (existing asset). The claim predicts the
run skips `P2`, processes `P3` and returns a completed report; the code
instead lets the exception raised by `generate_product_image` propagate
out of `generate_creatives`, aborting the run before `P3` and returning
no report. -/
theorem c1_counterexample :
    generate_creatives envC1 (defaultConfig none) ⟨"Camp", "Msg", [prodP2, prodP3]⟩ =
      .error "All GenAI services failed for product: Product Two" := by
  rfl

/-- C1 (amended): when the run reaches a product with no existing asset
whose generation is exhausted — the credential is absent or empty, or
every configured model's attempt fails — `generate_product_image`
raises `All GenAI services failed for product: <name>`; the exception
propagates uncaught out of `generate_creatives`, so the run aborts with
that error: the earlier products' work is discarded, the remaining
products are not processed and no `RunReport` is returned (the
exception is caught only by the top-level `main`). -/
theorem c1_exhaustion_aborts_run (env : Env) (cfg : Config) (brief : CampaignBrief)
    (ps₁ : List Product) (p : Product) (ps₂ : List Product) (st : FS × RunReport)
    (hprod : brief.products = ps₁ ++ p :: ps₂)
    (hrun : runProducts env cfg brief ps₁ ([], initReport brief) = .ok st)
    (hnoasset : get_existing_asset_path env cfg st.1 p.id = none)
    (hexh : keyTruthy cfg.HUGGINGFACE_API_KEY = false ∨
      ∀ m ∈ cfg.HUGGINGFACE_MODELS, hfSuccess env p m = false) :
    generate_creatives env cfg brief =
      .error ("All GenAI services failed for product: " ++ p.name) := by
  have hgen : generate_product_image env cfg p st.1 =
      (.error ("All GenAI services failed for product: " ++ p.name), st.1) :=
    generate_product_image_exhausted env cfg p st.1 hexh
  have hpp : processProduct env cfg brief st p =
      .error ("All GenAI services failed for product: " ++ p.name) := by
    unfold processProduct
    rw [hnoasset, hgen]
  unfold generate_creatives
  rw [hprod, runProducts_prefix env cfg brief ps₁ (p :: ps₂) ([], initReport brief) st hrun,
    show runProducts env cfg brief (p :: ps₂) st =
      (match processProduct env cfg brief st p with
        | .error e => .error e
        | .ok st1 => runProducts env cfg brief ps₂ st1) from rfl,
    hpp]

/-- C1 (amended) witness: a two-product brief whose first product `P3`
resolves from its existing asset; the second product `P2` has no asset
and, with the credential present, every model attempt fails on the dead
network, so the run aborts after `P3` was already processed. -/
theorem c1_exhaustion_aborts_run_witness :
    generate_creatives envC1 (defaultConfig (some "k")) ⟨"Camp", "Msg", [prodP3, prodP2]⟩ =
      .error ("All GenAI services failed for product: " ++ prodP2.name) := by
  refine c1_exhaustion_aborts_run envC1 (defaultConfig (some "k"))
    ⟨"Camp", "Msg", [prodP3, prodP2]⟩ [prodP3] prodP2 [] _ rfl rfl ?_ ?_
  · rfl
  · exact Or.inr fun m _ => rfl

/-- C5: end-to-end run on a brief with the single product `P1` whose
asset `input_assets/P1.jpg` exists (and decodes): the run returns a
report with `products_processed = 1`, `assets_generated = 3`, three
`generation_methods` entries whose first has `method =
"existing_asset"`, and a quality-95 JPEG is written at
`output/P1/<label>/creative_<label>.jpg` for each of the labels `1_1`,
`9_16`, `16_9`. -/
theorem c5_single_product_run (env : Env) (key : Option String) (cname msg nm ds : String)
    (hasset : env.fs0 "input_assets/P1.jpg" = true)
    (hdecode : ∀ dims, env.decodeOk "input_assets/P1.jpg" dims = true) :
    ∃ fs r,
      generate_creatives env (defaultConfig key) ⟨cname, msg, [⟨"P1", nm, ds⟩]⟩ = .ok (fs, r) ∧
      r.products_processed = 1 ∧
      r.assets_generated = 3 ∧
      r.generation_methods.length = 3 ∧
      r.generation_methods.head?.map GenEntry.method = some "existing_asset" ∧
      ∀ label ∈ (["1_1", "9_16", "16_9"] : List String), ∃ img,
        fsLookup fs ("output/P1/" ++ label ++ "/creative_" ++ label ++ ".jpg") =
          some (.jpeg img 95) := by
  have hfs1 : fsExists env [] "input_assets/P1.jpg" = true := by
    simp [fsExists, hasset]
  have hex : get_existing_asset_path env (defaultConfig key) [] "P1" =
      some "input_assets/P1.jpg" := by
    have h1 : joinPath (defaultConfig key).INPUT_ASSETS_DIR ("P1" ++ ".jpg") =
        "input_assets/P1.jpg" := rfl
    unfold get_existing_asset_path possible_extensions locateLoop
    rw [h1]
    simp [hfs1]
  have hres : ∀ (ar : String) (d1 d2 : Nat),
      resize_image_for_aspect_ratio env "input_assets/P1.jpg" ar (d1, d2) =
        some { width := d1, height := d2, overlay := none } := by
    intro ar d1 d2
    simp [resize_image_for_aspect_ratio, hdecode]
  have hstep : ∀ (st : FS × RunReport) (ar : String) (d1 d2 : Nat),
      processRatio env (defaultConfig key) ⟨cname, msg, [⟨"P1", nm, ds⟩]⟩ ⟨"P1", nm, ds⟩
          "input_assets/P1.jpg" "existing_asset" st (ar, d1, d2) =
        (fsWrite st.1
          (joinPath (joinPath (joinPath "output" "P1") ar) ("creative_" ++ ar ++ ".jpg"))
          (.jpeg (add_campaign_message env { width := d1, height := d2, overlay := none }
            msg ar) 95),
        { st.2 with
          assets_generated := st.2.assets_generated + 1
          generation_methods := st.2.generation_methods ++
            [{ product := "P1"
               product_name := nm
               method := "existing_asset"
               input_asset := "input_assets/P1.jpg"
               output := joinPath (joinPath (joinPath "output" "P1") ar)
                 ("creative_" ++ ar ++ ".jpg") }] }) := by
    intro st ar d1 d2
    simp [processRatio, hres, defaultConfig]
  have hcond : (!("input_assets/P1.jpg" == "") &&
      fsExists env [] "input_assets/P1.jpg") = true := by
    simp [fsExists, hasset]
  have hpr : processResolved env (defaultConfig key) ⟨cname, msg, [⟨"P1", nm, ds⟩]⟩
      ⟨"P1", nm, ds⟩ "input_assets/P1.jpg" "existing_asset" []
      (initReport ⟨cname, msg, [⟨"P1", nm, ds⟩]⟩) =
      (c5FS env msg, c5Report cname nm) := by
    unfold processResolved
    simp only [hcond, if_true]
    rw [show (defaultConfig key).ASPECT_RATIOS =
      [("1_1", (1024 : Nat), (1024 : Nat)), ("9_16", 720, 1280), ("16_9", 1280, 720)] from rfl]
    simp only [List.foldl_cons, List.foldl_nil, hstep]
    rfl
  have hpp : processProduct env (defaultConfig key) ⟨cname, msg, [⟨"P1", nm, ds⟩]⟩
      ([], initReport ⟨cname, msg, [⟨"P1", nm, ds⟩]⟩) ⟨"P1", nm, ds⟩ =
      .ok (processResolved env (defaultConfig key) ⟨cname, msg, [⟨"P1", nm, ds⟩]⟩
        ⟨"P1", nm, ds⟩ "input_assets/P1.jpg" "existing_asset" []
        (initReport ⟨cname, msg, [⟨"P1", nm, ds⟩]⟩)) := by
    unfold processProduct
    dsimp only
    rw [hex]
  have hfinal : generate_creatives env (defaultConfig key) ⟨cname, msg, [⟨"P1", nm, ds⟩]⟩ =
      .ok (c5FS env msg, c5Report cname nm) := by
    unfold generate_creatives
    unfold runProducts
    rw [hpp, hpr]
    rfl
  refine ⟨c5FS env msg, c5Report cname nm, hfinal, rfl, rfl, rfl, rfl, ?_⟩
  intro label hl
  simp only [List.mem_cons, List.not_mem_nil, or_false] at hl
  rcases hl with rfl | rfl | rfl
  · exact ⟨_, rfl⟩
  · exact ⟨_, rfl⟩
  · exact ⟨_, rfl⟩

/-- C5 witness: the concrete environment `envW` where
`input_assets/P1.jpg` exists and everything decodes and draws. -/
theorem c5_single_product_run_witness :
    ∃ fs r,
      generate_creatives envW (defaultConfig none) ⟨"c", "m", [⟨"P1", "N", "D"⟩]⟩ =
        .ok (fs, r) ∧
      r.products_processed = 1 ∧
      r.assets_generated = 3 ∧
      r.generation_methods.length = 3 ∧
      r.generation_methods.head?.map GenEntry.method = some "existing_asset" ∧
      ∀ label ∈ (["1_1", "9_16", "16_9"] : List String), ∃ img,
        fsLookup fs ("output/P1/" ++ label ++ "/creative_" ++ label ++ ".jpg") =
          some (.jpeg img 95) :=
  c5_single_product_run envW none "c" "m" "N" "D" rfl (fun _ => rfl)

end Pipeline
